import Mathlib

/-!
Verification of the dirty-propagation-and-update protocol of the pipeline
dataflow engine, shallowly embedded from the C++ sources.

The embedding mirrors the dirty-flag state machine of
`SimpleProcessNode` (src/SimpleProcessNode.h, src/SimpleProcessNode.cpp),
the input wiring of `InputImpl` (src/Input.h), the multi-input container
`Inputs` (src/Inputs.h) and the signal hierarchy (src/InputSignals.h).
Pure data (the dirty-flag vectors, the dependency hint vectors, the
output look-up map) becomes explicit state; each signal handler becomes a
state-transforming function which additionally reports the Modified
signals it emits downstream.
-/

/- ------------------------------------------------------------------ -/
/- Data model                                                          -/
/- ------------------------------------------------------------------ -/

/-- Input registration kind, src/SimpleProcessNode.h lines 10-14. -/
inductive InputType where
  | Required
  | Optional
deriving DecidableEq

/-- Dirty-state of a `SimpleProcessNode`.  The parallel vectors mirror the
members of src/SimpleProcessNode.h and src/SimpleProcessNode.cpp:
`inputDirty` is `_inputDirty`, `inputRequired` is `_inputRequired`,
`multiInputDirty` is `_multiInputDirty`, `outputDirty` is `_outputDirty`,
`inputDirtys` and `multiInputDirtys` are the per-input and per-multi-input
dependency hint vectors filled by `setDependency`.  The fields `inputIsSet`
and `inputHasAssignedOutput` mirror what `getInput(i).isSet()` and
`getInput(i).hasAssignedOutput()` return for each registered input, as read
by `requiredInputsPresent` (src/SimpleProcessNode.cpp line 600).  The number
of inputs `_numInputs` is `inputDirty.length`, the number of outputs
`_numOutputs` is `outputDirty.length`. -/
structure NodeState where
  inputDirty : List Bool
  inputRequired : List Bool
  inputIsSet : List Bool
  inputHasAssignedOutput : List Bool
  multiInputDirty : List (List Bool)
  outputDirty : List Bool
  inputDirtys : List (List Nat)
  multiInputDirtys : List (List Nat)
deriving DecidableEq

/- ------------------------------------------------------------------ -/
/- Helper predicates of the node, src/SimpleProcessNode.cpp            -/
/- ------------------------------------------------------------------ -/

/-- `SimpleProcessNode::haveDirtyInput`, src/SimpleProcessNode.cpp lines
537-553: true when some input dirty flag or some multi-input dirty flag is
set. -/
def haveDirtyInput (s : NodeState) : Bool :=
  s.inputDirty.any (fun b => b) || s.multiInputDirty.any (fun v => v.any (fun b => b))

/-- `SimpleProcessNode::numDirtyInputs`, src/SimpleProcessNode.cpp lines
555-573. -/
def numDirtyInputs (s : NodeState) : Nat :=
  (s.inputDirty.filter (fun b => b)).length
    + (s.multiInputDirty.map (fun v => (v.filter (fun b => b)).length)).sum

/-- `SimpleProcessNode::haveDirtyOutput`, src/SimpleProcessNode.cpp lines
575-584. -/
def haveDirtyOutput (s : NodeState) : Bool :=
  s.outputDirty.any (fun b => b)

/-- `SimpleProcessNode::setOutputsDirty(bool dirty)`, src/SimpleProcessNode.cpp
lines 586-592: sets every entry of `_outputDirty` to `dirty`. -/
def setOutputsDirty (s : NodeState) (dirty : Bool) : NodeState :=
  { s with outputDirty := s.outputDirty.map (fun _ => dirty) }

/-- `SimpleProcessNode::requiredInputsPresent`, src/SimpleProcessNode.cpp
lines 594-610: false as soon as some input `i` satisfies
`!(isSet() || hasAssignedOutput()) && _inputRequired[i]`. -/
def requiredInputsPresent (s : NodeState) : Bool :=
  (List.range s.inputDirty.length).all (fun i =>
    !(!(s.inputIsSet.getD i false || s.inputHasAssignedOutput.getD i false)
       && s.inputRequired.getD i false))

/-- `SimpleProcessNode::inputOutputDepends`, src/SimpleProcessNode.cpp lines
612-631.  `numOutput = none` models the `-1` argument. -/
def inputOutputDepends (s : NodeState) (numInput : Nat) (numOutput : Option Nat) : Bool :=
  match numOutput with
  | none => true
  | some o =>
      (s.inputDirtys.getD numInput []).length == 0
        || (s.inputDirtys.getD numInput []).contains o

/-- `SimpleProcessNode::multiInputOutputDepends`, src/SimpleProcessNode.cpp
lines 633-652. -/
def multiInputOutputDepends (s : NodeState) (numMultiInput : Nat) (numOutput : Option Nat) : Bool :=
  match numOutput with
  | none => true
  | some o =>
      (s.multiInputDirtys.getD numMultiInput []).length == 0
        || (s.multiInputDirtys.getD numMultiInput []).contains o

/- ------------------------------------------------------------------ -/
/- Signal emission and signal handlers                                 -/
/- ------------------------------------------------------------------ -/

/-- `SimpleProcessNode::sendModifiedSignals(numInput, numMultiInput)`,
src/SimpleProcessNode.cpp lines 504-535: returns the ordered list of output
indices on which a `Modified` signal is emitted.  If the dependency hint
vector for the given (multi-)input is non-empty, exactly the hinted outputs
receive `Modified`; otherwise every output does. -/
def sendModifiedSignals (s : NodeState) (numInput : Nat) (numMultiInput : Option Nat) : List Nat :=
  match numMultiInput with
  | none =>
      if (s.inputDirtys.getD numInput []).length > 0 then
        s.inputDirtys.getD numInput []
      else
        List.range s.outputDirty.length
  | some m =>
      if (s.multiInputDirtys.getD m []).length > 0 then
        s.multiInputDirtys.getD m []
      else
        List.range s.outputDirty.length

/-- `SimpleProcessNode::onInputModified`, src/SimpleProcessNode.cpp lines
225-236: set `_inputDirty[numInput] = true`, then send the Modified signals.
Returns the new state and the outputs that received `Modified`. -/
def onInputModified (s : NodeState) (numInput : Nat) : NodeState × List Nat :=
  let s1 : NodeState := { s with inputDirty := s.inputDirty.set numInput true }
  (s1, sendModifiedSignals s1 numInput none)

/-- `SimpleProcessNode::onInputSet`, src/SimpleProcessNode.cpp lines 238-251:
identical dirty-flag effect to `onInputModified`. -/
def onInputSet (s : NodeState) (numInput : Nat) : NodeState × List Nat :=
  let s1 : NodeState := { s with inputDirty := s.inputDirty.set numInput true }
  (s1, sendModifiedSignals s1 numInput none)

/-- `SimpleProcessNode::onInputSetToSharedPointer`, src/SimpleProcessNode.cpp
lines 253-269: set `_inputDirty[numInput] = false`, call `setOutputsDirty()`
(default argument `true`, so every output is marked dirty), then send the
Modified signals. -/
def onInputSetToSharedPointer (s : NodeState) (numInput : Nat) : NodeState × List Nat :=
  let s1 : NodeState := { s with inputDirty := s.inputDirty.set numInput false }
  let s2 := setOutputsDirty s1 true
  (s2, sendModifiedSignals s2 numInput none)

/-- `SimpleProcessNode::onInputAdded`, src/SimpleProcessNode.cpp lines
271-281: append `true` to the dirty vector of the multi-input. -/
def onInputAdded (s : NodeState) (numMultiInput : Nat) : NodeState :=
  { s with multiInputDirty :=
      s.multiInputDirty.set numMultiInput ((s.multiInputDirty.getD numMultiInput []) ++ [true]) }

/-- `SimpleProcessNode::onInputsCleared`, src/SimpleProcessNode.cpp lines
283-293: empty the dirty vector of the multi-input. -/
def onInputsCleared (s : NodeState) (numMultiInput : Nat) : NodeState :=
  { s with multiInputDirty := s.multiInputDirty.set numMultiInput [] }

/-- `SimpleProcessNode::onMultiInputModified`, src/SimpleProcessNode.cpp lines
295-306. -/
def onMultiInputModified (s : NodeState) (numInput numMultiInput : Nat) : NodeState × List Nat :=
  let v := (s.multiInputDirty.getD numMultiInput []).set numInput true
  let s1 : NodeState := { s with multiInputDirty := s.multiInputDirty.set numMultiInput v }
  (s1, sendModifiedSignals s1 numInput (some numMultiInput))

/- ------------------------------------------------------------------ -/
/- Registration, src/SimpleProcessNode.cpp                             -/
/- ------------------------------------------------------------------ -/

/-- `SimpleProcessNode::registerInput`, src/SimpleProcessNode.cpp lines
39-95: push `true` on `_inputDirty` and an empty hint vector on
`_inputDirtys`; for an `Optional` input reset the new flag to `false` and
push `false` on `_inputRequired`, otherwise push `true`; the fresh input is
unset and has no assigned output; finally call `setOutputsDirty()`. -/
def registerInput (s : NodeState) (t : InputType) : NodeState :=
  let n := s.inputDirty.length
  let s1 : NodeState := { s with
    inputDirty := s.inputDirty ++ [true],
    inputDirtys := s.inputDirtys ++ [[]],
    inputIsSet := s.inputIsSet ++ [false],
    inputHasAssignedOutput := s.inputHasAssignedOutput ++ [false] }
  let s2 : NodeState :=
    match t with
    | InputType.Optional =>
        { s1 with inputDirty := s1.inputDirty.set n false,
                  inputRequired := s1.inputRequired ++ [false] }
    | InputType.Required =>
        { s1 with inputRequired := s1.inputRequired ++ [true] }
  setOutputsDirty s2 true

/-- `SimpleProcessNode::registerInputs` (multi-input registration),
src/SimpleProcessNode.cpp lines 97-129: push an empty dirty vector and an
empty hint vector, then `setOutputsDirty()`. -/
def registerInputs (s : NodeState) : NodeState :=
  setOutputsDirty
    { s with multiInputDirty := s.multiInputDirty ++ [[]],
             multiInputDirtys := s.multiInputDirtys ++ [[]] } true

/-- `SimpleProcessNode::registerOutput`, src/SimpleProcessNode.cpp lines
131-157: push `true` on `_outputDirty`. -/
def registerOutput (s : NodeState) : NodeState :=
  { s with outputDirty := s.outputDirty ++ [true] }

/-- `SimpleProcessNode::setDependency(InputBase&, OutputBase&)`,
src/SimpleProcessNode.cpp lines 159-167: append the output index to the hint
vector of the input. -/
def setDependency (s : NodeState) (numInput numOutput : Nat) : NodeState :=
  { s with inputDirtys :=
      s.inputDirtys.set numInput ((s.inputDirtys.getD numInput []) ++ [numOutput]) }

/- ------------------------------------------------------------------ -/
/- The pull procedure, src/SimpleProcessNode.cpp                       -/
/- ------------------------------------------------------------------ -/

/-- Local dirty-flag effect of `SimpleProcessNode::sendUpdateSignals`,
src/SimpleProcessNode.cpp lines 368-502: every dirty input whose dependency
set contains `numOutput` has its dirty flag cleared (and an `Update` signal
is emitted backward on it); same for the entries of every dependent
multi-input. -/
def sendUpdateSignals (s : NodeState) (numOutput : Option Nat) : NodeState :=
  { s with
    inputDirty := (List.range s.inputDirty.length).map (fun i =>
      if inputOutputDepends s i numOutput then false else s.inputDirty.getD i false),
    multiInputDirty := (List.range s.multiInputDirty.length).map (fun m =>
      if multiInputOutputDepends s m numOutput then
        (s.multiInputDirty.getD m []).map (fun _ => false)
      else
        s.multiInputDirty.getD m []) }

/-- First section of `SimpleProcessNode::onUpdate`, src/SimpleProcessNode.cpp
lines 316-330: if some input is dirty, mark all outputs dirty
(`setOutputsDirty()`) and send update signals for the pulled output. -/
def pullPhase1 (s : NodeState) (numOutput : Nat) : NodeState :=
  if haveDirtyInput s then
    sendUpdateSignals (setOutputsDirty s true) (some numOutput)
  else
    s

/-- `SimpleProcessNode::onUpdate`, src/SimpleProcessNode.cpp lines 308-366:
`pullPhase1` followed by the second section (lines 346-366): if some output
is dirty and all required inputs are present, clear all output dirty flags
(`setOutputsDirty(false)`) and invoke the subclass compute (`updateOutputs`
via `lockInputs(0)`).  The second component is `some s2` when compute is
invoked, where `s2` is the dirty-state of the node at the moment of the
invocation (compute itself writes output data, not dirty flags); it is
`none` when compute is not invoked. -/
def onUpdate (s : NodeState) (numOutput : Nat) : NodeState × Option NodeState :=
  let s1 := pullPhase1 s numOutput
  if haveDirtyOutput s1 && requiredInputsPresent s1 then
    (setOutputsDirty s1 false, some (setOutputsDirty s1 false))
  else
    (s1, none)

/- ------------------------------------------------------------------ -/
/- Signal dispatch for InputSetToSharedPointer                         -/
/- ------------------------------------------------------------------ -/

/-- Dispatch of one `InputSetToSharedPointer` signal arriving at input
`numInput`.  By src/InputSignals.h, `InputSetToSharedPointerBase` derives
from `InputSetBase`, which derives from `Modified`; the callbacks registered
in `registerInput` (src/SimpleProcessNode.cpp lines 56-85, all with
`signals::Transparent`) therefore all match the signal and fire in
registration order: `onInputModified` first, then (for an `Optional` input
only) `onInputSet`, then `onInputSetToSharedPointer`. -/
def dispatchInputSetToSharedPointer (s : NodeState) (numInput : Nat) (optional : Bool) :
    NodeState × List Nat :=
  let p1 := onInputModified s numInput
  let p2 := if optional then onInputSet p1.1 numInput else (p1.1, [])
  let p3 := onInputSetToSharedPointer p2.1 numInput
  (p3.1, p1.2 ++ p2.2 ++ p3.2)

/-- Modelled from the spec: output `o` depends on input `i` when at least
one dependency hint was declared for `i` and lists `o`, or when no hint was
declared for `i` (then every output of the node depends on `i`). -/
def specDependsOn (s : NodeState) (numInput numOutput : Nat) : Bool :=
  if (s.inputDirtys.getD numInput []).length > 0 then
    (s.inputDirtys.getD numInput []).contains numOutput
  else
    decide (numOutput < s.outputDirty.length)

/- ------------------------------------------------------------------ -/
/- Input wiring, src/Input.h                                           -/
/- ------------------------------------------------------------------ -/

/-- Runtime type tag of a data carrier.  The dynamic downcast
`boost::dynamic_pointer_cast<DataType>(data)` of src/Input.h succeeds
exactly when the carrier's runtime type is the input's declared type (the
modelled carrier types are unrelated leaf classes). -/
inductive CarrierTy where
  | tyInt
  | tyString
deriving DecidableEq

/-- Internal signals a typed input can emit, src/Input.h lines 340, 359,
262. -/
inductive InputSignal where
  | inputSet
  | inputSetToSharedPointer
  | inputUnset
deriving DecidableEq

/-- Connection state of one `InputImpl` (src/Input.h) together with the
signal edges it shares with an output: `data` is the runtime type of the
carrier held by `_data` (none when unset), `assignedOutput` is
`_assignedOutput` of `InputBase` (an output identifier), `fwdConnected`
records the edge forward-sender(output) to backward-receiver(input),
`bwdConnected` the edge backward-sender(input) to forward-receiver(output),
`internalConnected` the edge internal-sender to backward-receiver, and
`emitted` the internal signals sent so far. -/
structure InputConnState where
  declaredTy : CarrierTy
  data : Option CarrierTy
  assignedOutput : Option Nat
  fwdConnected : Bool
  bwdConnected : Bool
  internalConnected : Bool
  emitted : List InputSignal
deriving DecidableEq

/-- `InputImpl::accept(OutputBase&)`, src/Input.h lines 211-228, with
`InputImpl::setDataFromOutput`, lines 324-341.  The signal connections are
established and the output is recorded as assigned; then, if the output
already carries data, the carrier is downcast to the declared type.  On
downcast failure `AssignmentError` is thrown (second component `true`),
leaving the state as mutated up to that point. -/
def acceptOutput (s : InputConnState) (outputId : Nat) (outputData : Option CarrierTy) :
    InputConnState × Bool :=
  let s1 : InputConnState := { s with
    fwdConnected := true,
    bwdConnected := true,
    internalConnected := true,
    assignedOutput := some outputId }
  match outputData with
  | none => (s1, false)
  | some rt =>
      if rt == s.declaredTy then
        ({ s1 with data := some rt, emitted := s1.emitted ++ [InputSignal.inputSet] }, false)
      else
        (s1, true)

/-- `InputImpl::accept(boost::shared_ptr<Data>)`, src/Input.h lines 230-241,
with `InputImpl::setDataFromPointer`, lines 343-360.  The internal sender is
connected and the assigned output is unset; then the pointer is downcast to
the declared type; on failure `AssignmentError` is thrown (second component
`true`), leaving the state as mutated up to that point. -/
def acceptPointer (s : InputConnState) (ptrData : CarrierTy) : InputConnState × Bool :=
  let s1 : InputConnState := { s with
    internalConnected := true,
    assignedOutput := none }
  if ptrData == s.declaredTy then
    ({ s1 with data := some ptrData,
               emitted := s1.emitted ++ [InputSignal.inputSetToSharedPointer] }, false)
  else
    (s1, true)

/-- A freshly constructed, unset input (src/Input.cpp: `_assignedOutput(0)`;
src/Input.h: `_data` default-constructed empty). -/
def freshInput (t : CarrierTy) : InputConnState :=
  { declaredTy := t, data := none, assignedOutput := none,
    fwdConnected := false, bwdConnected := false, internalConnected := false,
    emitted := [] }

/- ------------------------------------------------------------------ -/
/- Multi-input clear, src/Inputs.h                                     -/
/- ------------------------------------------------------------------ -/

/-- Signals a multi-input can emit towards its owning node.  The node
registers callbacks for `InputAddedBase` and `InputsCleared`
(src/SimpleProcessNode.cpp lines 112-118). -/
inductive MultiSignal where
  | inputAdded
  | inputsCleared
deriving DecidableEq

/-- Container state of an `Inputs` multi-input (src/Inputs.h): the number of
inner inputs in `_inputs` and the sizes of the `Slots` vectors registered
via `registerBackwardSlots`. -/
structure MultiInputState where
  inputsCount : Nat
  slotSizes : List Nat
deriving DecidableEq

/-- `Inputs::clear`, src/Inputs.h lines 242-250: empties `_inputs` and
clears every registered `Slots` vector.  It emits no signal: the returned
signal list is empty (in particular, no `InputsCleared` is sent — nothing in
the repository emits that signal). -/
def inputsClear (m : MultiInputState) : MultiInputState × List MultiSignal :=
  ({ inputsCount := 0, slotSizes := m.slotSizes.map (fun _ => 0) }, [])

/-- Node-side processing of the signals emitted by a multi-input `mi`:
`inputAdded` fires `onInputAdded`, `inputsCleared` fires `onInputsCleared`
(src/SimpleProcessNode.cpp lines 112-118, 271-293). -/
def processMultiSignals (s : NodeState) (mi : Nat) : List MultiSignal → NodeState
  | [] => s
  | MultiSignal.inputAdded :: rest => processMultiSignals (onInputAdded s mi) mi rest
  | MultiSignal.inputsCleared :: rest => processMultiSignals (onInputsCleared s mi) mi rest

/-- `ProcessNode::clearInputs` (src/ProcessNode.cpp lines 87-96) delegates
to `MultiInput::clear`; the owning node then reacts to whatever signals the
clear emitted. -/
def clearInputs (s : NodeState) (m : MultiInputState) (mi : Nat) :
    NodeState × MultiInputState :=
  let r := inputsClear m
  (processMultiSignals s mi r.2, r.1)

/- ------------------------------------------------------------------ -/
/- Lock discipline of dirty-flag mutations, src/SimpleProcessNode.cpp  -/
/- ------------------------------------------------------------------ -/

/-- Which dirty-flag vector a mutation touches. -/
inductive FlagKind where
  | inputFlag
  | multiFlag
  | outputFlag
deriving DecidableEq

/-- One mutation of a dirty flag, annotated with the node mutexes held at
the program point where the mutation executes: `_inputDirtyMutex` (the
dirty-state mutex) and `_updateMutex`. -/
structure DirtyMutation where
  flag : FlagKind
  underDirtyMutex : Bool
  underUpdateMutex : Bool
deriving DecidableEq

/-- Dirty-flag mutations of `SimpleProcessNode::onInputModified`,
src/SimpleProcessNode.cpp lines 225-236: `_inputDirty[numInput] = true` at
line 233 under the scoped lock on `_inputDirtyMutex` taken at line 231. -/
def onInputModifiedMutations : List DirtyMutation :=
  [{ flag := FlagKind.inputFlag, underDirtyMutex := true, underUpdateMutex := false }]

/-- Dirty-flag mutations of `SimpleProcessNode::onInputSet`, lines 238-251:
`_inputDirty[numInput] = true` at line 246 under the lock of line 244. -/
def onInputSetMutations : List DirtyMutation :=
  [{ flag := FlagKind.inputFlag, underDirtyMutex := true, underUpdateMutex := false }]

/-- Dirty-flag mutations of `SimpleProcessNode::onInputSetToSharedPointer`,
lines 253-269: `_inputDirty[numInput] = false` (line 262) and the
`setOutputsDirty()` call (line 265), both inside the scoped lock of line
259. -/
def onInputSetToSharedPointerMutations : List DirtyMutation :=
  [{ flag := FlagKind.inputFlag, underDirtyMutex := true, underUpdateMutex := false },
   { flag := FlagKind.outputFlag, underDirtyMutex := true, underUpdateMutex := false }]

/-- Dirty-flag mutations of `SimpleProcessNode::onInputAdded`, lines
271-281: push on `_multiInputDirty[numMultiInput]` under the lock of line
277. -/
def onInputAddedMutations : List DirtyMutation :=
  [{ flag := FlagKind.multiFlag, underDirtyMutex := true, underUpdateMutex := false }]

/-- Dirty-flag mutations of `SimpleProcessNode::onInputsCleared`, lines
283-293: `_multiInputDirty[numMultiInput].clear()` under the lock of line
289. -/
def onInputsClearedMutations : List DirtyMutation :=
  [{ flag := FlagKind.multiFlag, underDirtyMutex := true, underUpdateMutex := false }]

/-- Dirty-flag mutations of `SimpleProcessNode::onMultiInputModified`, lines
295-306: the assignment of line 303 under the lock of line 301. -/
def onMultiInputModifiedMutations : List DirtyMutation :=
  [{ flag := FlagKind.multiFlag, underDirtyMutex := true, underUpdateMutex := false }]

/-- Dirty-flag mutations of `SimpleProcessNode::setDirty`, lines 193-223:
`_outputDirty[outputNum] = true` at line 218.  The function acquires no
mutex at all. -/
def setDirtyMutations : List DirtyMutation :=
  [{ flag := FlagKind.outputFlag, underDirtyMutex := false, underUpdateMutex := false }]

/-- Dirty-flag mutations of `SimpleProcessNode::onUpdate` (the pull
procedure), lines 308-366, in program order, all under the scoped lock on
`_updateMutex` of line 312.  The `setOutputsDirty()` call at line 324 runs
after `inputDirtyLock.unlock()` (line 321), so not under the dirty-state
mutex; inside `sendUpdateSignals` the clearing of `_inputDirty[i]` (line
392) and `_multiInputDirty[i][j]` (line 449) happens under scoped locks on
`_inputDirtyMutex` (lines 386, 443); the `setOutputsDirty(false)` call at
line 352 holds no dirty-state mutex. -/
def onUpdateMutations : List DirtyMutation :=
  [{ flag := FlagKind.outputFlag, underDirtyMutex := false, underUpdateMutex := true },
   { flag := FlagKind.inputFlag, underDirtyMutex := true, underUpdateMutex := true },
   { flag := FlagKind.multiFlag, underDirtyMutex := true, underUpdateMutex := true },
   { flag := FlagKind.outputFlag, underDirtyMutex := false, underUpdateMutex := true }]

/-- All dirty-flag mutations of the runtime protocol (signal handlers, pull
procedure and `setDirty`) of src/SimpleProcessNode.cpp. -/
def protocolMutations : List DirtyMutation :=
  onInputModifiedMutations ++ onInputSetMutations
    ++ onInputSetToSharedPointerMutations ++ onInputAddedMutations
    ++ onInputsClearedMutations ++ onMultiInputModifiedMutations
    ++ setDirtyMutations ++ onUpdateMutations

/- ------------------------------------------------------------------ -/
/- setDirty with the output look-up map, src/SimpleProcessNode.cpp     -/
/- ------------------------------------------------------------------ -/

/-- Look-up in an association list modelling `std::map<OutputBase*,
unsigned int>` (`_outputNums`); keys are output identities. -/
def mapFind (m : List (Nat × Nat)) (k : Nat) : Option Nat :=
  match m with
  | [] => none
  | kv :: rest => if k == kv.1 then some kv.2 else mapFind rest k

/-- `operator[]` of `std::map`: value-initializes (to `0`) and inserts a
missing key, then returns the mapped value together with the updated map. -/
def mapIndex (m : List (Nat × Nat)) (k : Nat) : List (Nat × Nat) × Nat :=
  match mapFind m k with
  | some v => (m, v)
  | none => (m ++ [(k, 0)], 0)

/-- Result of `SimpleProcessNode::setDirty`. -/
structure SetDirtyResult where
  outputNums : List (Nat × Nat)
  outputDirty : List Bool
  loggedError : Bool
  emitted : List Nat
  outOfBounds : Bool
deriving DecidableEq

/-- `SimpleProcessNode::setDirty(OutputBase&)`, src/SimpleProcessNode.cpp
lines 193-223.  If the output is not in `_outputNums`, an error is logged
and execution continues (line 210-212); `_outputNums[&output]`
default-inserts index `0` for the unknown key (line 214);
`_outputDirty[outputNum] = true` (line 218) is an out-of-bounds vector
access when `outputNum` is not below the vector's length, in which case no
flag is written and no signal is emitted; otherwise `Modified` is emitted on
slot `outputNum` (line 222). -/
def setDirty (outputNums : List (Nat × Nat)) (outputDirty : List Bool) (outputId : Nat) :
    SetDirtyResult :=
  let logged := (mapFind outputNums outputId).isNone
  let r := mapIndex outputNums outputId
  if r.2 < outputDirty.length then
    { outputNums := r.1, outputDirty := outputDirty.set r.2 true,
      loggedError := logged, emitted := [r.2], outOfBounds := false }
  else
    { outputNums := r.1, outputDirty := outputDirty,
      loggedError := logged, emitted := [], outOfBounds := true }

/- ------------------------------------------------------------------ -/
/- Concrete scenario states                                            -/
/- ------------------------------------------------------------------ -/

/-- Producer of the fan-out scenario: a source node with no inputs and one
output that is still dirty (never computed). -/
def producerNode : NodeState :=
  { inputDirty := [], inputRequired := [], inputIsSet := [], inputHasAssignedOutput := [],
    multiInputDirty := [], outputDirty := [true], inputDirtys := [], multiInputDirtys := [] }

/-- A quiescent node: one required, present, clean input; one clean
output. -/
def cleanNode : NodeState :=
  { inputDirty := [false], inputRequired := [true], inputIsSet := [true],
    inputHasAssignedOutput := [false], multiInputDirty := [[]], outputDirty := [false],
    inputDirtys := [[]], multiInputDirtys := [[]] }

/-- One required, present, dirty input whose only dependency hint names
output 1; two clean outputs. -/
def staleInputNode : NodeState :=
  { inputDirty := [true], inputRequired := [true], inputIsSet := [true],
    inputHasAssignedOutput := [false], multiInputDirty := [], outputDirty := [false, false],
    inputDirtys := [[1]], multiInputDirtys := [] }

/-- One required, present input with a dependency hint naming only output 0;
two clean outputs. -/
def hintedNode : NodeState :=
  { inputDirty := [false], inputRequired := [true], inputIsSet := [true],
    inputHasAssignedOutput := [false], multiInputDirty := [], outputDirty := [false, false],
    inputDirtys := [[0]], multiInputDirtys := [] }

/-- A node with one required input that is neither set nor assigned. -/
def missingInputNode : NodeState :=
  { inputDirty := [true], inputRequired := [true], inputIsSet := [false],
    inputHasAssignedOutput := [false], multiInputDirty := [], outputDirty := [true],
    inputDirtys := [[]], multiInputDirtys := [] }

/-- A node owning one multi-input whose (single-entry) dirty vector is set,
and one dirty output. -/
def multiDirtyNode : NodeState :=
  { inputDirty := [], inputRequired := [], inputIsSet := [], inputHasAssignedOutput := [],
    multiInputDirty := [[true]], outputDirty := [true], inputDirtys := [],
    multiInputDirtys := [[]] }

/-- A multi-input with one inner input and one registered slot vector of
size one. -/
def oneEntryMulti : MultiInputState :=
  { inputsCount := 1, slotSizes := [1] }

/- ------------------------------------------------------------------ -/
/- Helper lemmas                                                       -/
/- ------------------------------------------------------------------ -/

theorem getD_append_length {α : Type} (l : List α) (a d : α) :
    (l ++ [a]).getD l.length d = a := by
  induction l with
  | nil => rfl
  | cons x t ih => simp only [List.cons_append, List.length_cons, List.getD, List.getElem?_cons_succ] at ih ⊢; exact ih

theorem getD_set_self {α : Type} (l : List α) (i : Nat) (a d : α) (h : i < l.length) :
    (l.set i a).getD i d = a := by
  induction l generalizing i with
  | nil => simp at h
  | cons x t ih =>
      cases i with
      | zero => rfl
      | succ n => simpa [List.getD] using ih n (by simpa using h)

theorem getD_map_const {α β : Type} (l : List α) (i : Nat) (b d : β) (h : i < l.length) :
    (l.map (fun _ => b)).getD i d = b := by
  induction l generalizing i with
  | nil => simp at h
  | cons x t ih =>
      cases i with
      | zero => rfl
      | succ n => simpa [List.getD] using ih n (by simpa using h)

theorem any_id_eq_false (l : List Bool) (h : ∀ b ∈ l, b = false) :
    l.any (fun b => b) = false := by
  cases hA : l.any (fun b => b) with
  | false => rfl
  | true =>
      rcases List.any_eq_true.mp hA with ⟨x, hx, hxt⟩
      rw [h x hx] at hxt
      exact absurd hxt (by simp)

theorem mem_sendModifiedSignals (s : NodeState) (i o : Nat) :
    o ∈ sendModifiedSignals s i none ↔ specDependsOn s i o = true := by
  unfold sendModifiedSignals specDependsOn
  by_cases h : (s.inputDirtys.getD i []).length > 0
  · simp only [h, if_pos]
    simp [List.elem_iff]
  · simp only [h, if_neg, ite_false]
    simp [List.mem_range]

theorem specDependsOn_congr (s s' : NodeState) (i o : Nat)
    (h1 : s.inputDirtys = s'.inputDirtys)
    (h2 : s.outputDirty.length = s'.outputDirty.length) :
    specDependsOn s i o = specDependsOn s' i o := by
  unfold specDependsOn
  rw [h1, h2]

theorem requiredInputsPresent_pullPhase1 (s : NodeState) (o : Nat) :
    requiredInputsPresent (pullPhase1 s o) = requiredInputsPresent s := by
  unfold pullPhase1
  by_cases h : haveDirtyInput s = true
  · simp only [h, if_pos]
    unfold requiredInputsPresent sendUpdateSignals setOutputsDirty
    simp
  · simp [h]

/- ------------------------------------------------------------------ -/
/- Claim C1                                                            -/
/- ------------------------------------------------------------------ -/

/-- C1: a pull (`Update`) arriving at any output of a quiescent node — all
input, multi-input and output dirty flags false — returns without invoking
the subclass compute (`updateOutputs`) and leaves the node state, hence
every dirty flag, unchanged.  Moreover, pulling the same unmodified
producer twice (two sinks reading the same output) invokes its compute
exactly once: on the first pull and not on the second. -/
theorem C1_quiescent_pull_no_compute :
    (∀ (s : NodeState) (o : Nat), haveDirtyInput s = false → haveDirtyOutput s = false →
      onUpdate s o = (s, none)) ∧
    ((onUpdate producerNode 0).2.isSome = true ∧
      (onUpdate (onUpdate producerNode 0).1 0).2 = none) := by
  constructor
  · intro s o h1 h2
    unfold onUpdate pullPhase1
    simp [h1, h2]
  · exact ⟨by decide, by decide⟩

/-- Witness for C1: the hypotheses hold at the quiescent node `cleanNode`
and the conclusion evaluates there. -/
theorem C1_quiescent_pull_no_compute_witness :
    haveDirtyInput cleanNode = false ∧ haveDirtyOutput cleanNode = false ∧
      onUpdate cleanNode 0 = (cleanNode, none) :=
  ⟨by decide, by decide, C1_quiescent_pull_no_compute.1 cleanNode 0 (by decide) (by decide)⟩

/- ------------------------------------------------------------------ -/
/- Claim C2                                                            -/
/- ------------------------------------------------------------------ -/

/-- C2 counterexample: the node `staleInputNode` has one dirty input whose
only dependency hint names output 1, and two clean outputs.  Pulling output
0 invokes compute — if that compute raises, the node's dirty-state is the
first component, with all output flags false — yet pulling output 0 again
immediately re-invokes compute, although no `setDirty` was called and no
`Modified` arrived in between.  This falsifies the claim that after a
failed compute the next pull does not re-run compute. -/
theorem C2_counterexample :
    (onUpdate staleInputNode 0).2 = some (onUpdate staleInputNode 0).1 ∧
    (onUpdate staleInputNode 0).1.outputDirty = [false, false] ∧
    (onUpdate (onUpdate staleInputNode 0).1 0).2.isSome = true := by decide

/-- C2 (amended): whenever the pull procedure invokes the subclass compute,
every output-dirty flag has been set to false strictly before the
invocation: the node's dirty-state at invocation time (which is also the
state left behind if compute raises) has all output flags false.
Consequently, after a failed compute the next pull does not re-run compute
provided additionally no input-dirty flag remains set (and no `setDirty` or
`Modified` intervenes); a dirty input that does not feed the pulled output
survives the pull and makes the next pull recompute. -/
theorem C2_outputs_cleared_before_compute :
    (∀ (s : NodeState) (o : Nat) (s2 : NodeState), (onUpdate s o).2 = some s2 →
      ((onUpdate s o).1 = s2 ∧ s2.outputDirty.all (fun b => b == false) = true)) ∧
    (∀ (s2 : NodeState) (o2 : Nat), s2.outputDirty.all (fun b => b == false) = true →
      haveDirtyInput s2 = false → (onUpdate s2 o2).2 = none) := by
  constructor
  · intro s o s2 h
    unfold onUpdate at h ⊢
    by_cases hc : (haveDirtyOutput (pullPhase1 s o)
        && requiredInputsPresent (pullPhase1 s o)) = true
    · rw [if_pos hc] at h ⊢
      dsimp at h ⊢
      have hs2 : setOutputsDirty (pullPhase1 s o) false = s2 := Option.some.inj h
      refine ⟨hs2, ?_⟩
      rw [← hs2]
      unfold setOutputsDirty
      simp [List.all_eq_true]
    · rw [if_neg hc] at h
      dsimp at h
      exact absurd h (by simp)
  · intro s2 o2 hall hdin
    have hout : haveDirtyOutput s2 = false := by
      apply any_id_eq_false
      intro b hb
      have hb2 := List.all_eq_true.mp hall b hb
      simpa using hb2
    unfold onUpdate pullPhase1
    simp [hdin, hout]

/-- Witness for C2: part one applied to the pull of `staleInputNode`, part
two applied to the quiescent node `cleanNode`. -/
theorem C2_outputs_cleared_before_compute_witness :
    ((onUpdate staleInputNode 0).1 = (onUpdate staleInputNode 0).1 ∧
      ((onUpdate staleInputNode 0).1).outputDirty.all (fun b => b == false) = true) ∧
    (onUpdate cleanNode 0).2 = none :=
  ⟨C2_outputs_cleared_before_compute.1 staleInputNode 0 (onUpdate staleInputNode 0).1
      (by decide),
   C2_outputs_cleared_before_compute.2 cleanNode 0 (by decide) (by decide)⟩

/- ------------------------------------------------------------------ -/
/- Claim C3                                                            -/
/- ------------------------------------------------------------------ -/

/-- C3: receiving `Modified` on input `i` sets `inputDirty[i]` to true,
leaves the output dirty flags unchanged, and emits `Modified` on exactly
the outputs that depend on `i`: exactly the hinted outputs when at least
one dependency hint was declared for `i` via `setDependency`, otherwise
every output of the node. -/
theorem C3_input_modified_propagation :
    ∀ (s : NodeState) (i o : Nat), i < s.inputDirty.length →
      ((onInputModified s i).1.inputDirty.getD i false = true ∧
       (onInputModified s i).1.outputDirty = s.outputDirty ∧
       (o ∈ (onInputModified s i).2 ↔ specDependsOn s i o = true)) := by
  intro s i o hi
  refine ⟨?_, rfl, ?_⟩
  · unfold onInputModified
    dsimp
    exact getD_set_self _ _ _ _ hi
  · unfold onInputModified
    dsimp
    exact mem_sendModifiedSignals _ i o

/-- Witness for C3 at `hintedNode` (one hint, input 0 feeds output 0). -/
theorem C3_input_modified_propagation_witness :
    0 < hintedNode.inputDirty.length ∧
    ((onInputModified hintedNode 0).1.inputDirty.getD 0 false = true ∧
     (onInputModified hintedNode 0).1.outputDirty = hintedNode.outputDirty ∧
     (1 ∈ (onInputModified hintedNode 0).2 ↔ specDependsOn hintedNode 0 1 = true)) :=
  ⟨by decide, C3_input_modified_propagation hintedNode 0 1 (by decide)⟩

/- ------------------------------------------------------------------ -/
/- Claim C4                                                            -/
/- ------------------------------------------------------------------ -/

/-- C4 counterexample: on `hintedNode` the only dependency hint declares
that input 0 feeds output 0, so output 1 does not depend on input 0 and was
clean; yet after the `InputSetToSharedPointer` dispatch for input 0, output
1 is marked dirty (the handler calls `setOutputsDirty()`, which marks every
output).  This falsifies the claim that exactly the outputs depending on
`i` are marked dirty. -/
theorem C4_counterexample :
    hintedNode.outputDirty.getD 1 false = false ∧
    specDependsOn hintedNode 0 1 = false ∧
    (dispatchInputSetToSharedPointer hintedNode 0 false).1.outputDirty.getD 1 false = true := by
  decide

/-- C4 (amended): after the dispatch of `InputSetToSharedPointer` on input
`i` — regardless of which other handler callbacks (the `Modified` handler,
and for an optional input also the `InputSet` handler) fire for the same
signal — the node's `inputDirty[i]` flag ends up false, every output of the
node (not only the dependent ones) is marked dirty, and `Modified` is
forwarded downstream exactly to the outputs depending on `i`. -/
theorem C4_shared_pointer_dispatch :
    ∀ (s : NodeState) (i o : Nat) (opt : Bool), i < s.inputDirty.length →
      ((dispatchInputSetToSharedPointer s i opt).1.inputDirty.getD i false = false ∧
       (∀ j, j < s.outputDirty.length →
         (dispatchInputSetToSharedPointer s i opt).1.outputDirty.getD j false = true) ∧
       (o ∈ (dispatchInputSetToSharedPointer s i opt).2 ↔ specDependsOn s i o = true)) := by
  intro s i o opt hi
  cases opt
  case false =>
    unfold dispatchInputSetToSharedPointer onInputSetToSharedPointer onInputModified
    dsimp
    refine ⟨?_, ?_, ?_⟩
    · unfold setOutputsDirty
      dsimp
      rw [List.set_set]
      exact getD_set_self _ _ _ _ hi
    · intro j hj
      unfold setOutputsDirty
      dsimp
      exact getD_map_const _ _ _ _ hj
    · have e1 : o ∈ sendModifiedSignals { s with inputDirty := s.inputDirty.set i true } i none
          ↔ specDependsOn s i o = true := mem_sendModifiedSignals _ i o
      have e3 : o ∈ sendModifiedSignals
            (setOutputsDirty { s with inputDirty := (s.inputDirty.set i true).set i false } true)
            i none
          ↔ specDependsOn s i o = true := by
        rw [mem_sendModifiedSignals]
        constructor
        · intro h
          rw [specDependsOn_congr s
              (setOutputsDirty { s with inputDirty := (s.inputDirty.set i true).set i false } true)
              i o rfl (by unfold setOutputsDirty; simp)]
          exact h
        · intro h
          rw [← specDependsOn_congr s
              (setOutputsDirty { s with inputDirty := (s.inputDirty.set i true).set i false } true)
              i o rfl (by unfold setOutputsDirty; simp)]
          exact h
      rw [List.append_nil, List.mem_append, e1, e3, or_self]
  case true =>
    unfold dispatchInputSetToSharedPointer onInputSetToSharedPointer onInputModified onInputSet
    dsimp
    refine ⟨?_, ?_, ?_⟩
    · unfold setOutputsDirty
      dsimp
      rw [List.set_set, List.set_set]
      exact getD_set_self _ _ _ _ hi
    · intro j hj
      unfold setOutputsDirty
      dsimp
      exact getD_map_const _ _ _ _ hj
    · have e1 : o ∈ sendModifiedSignals { s with inputDirty := s.inputDirty.set i true } i none
          ↔ specDependsOn s i o = true := mem_sendModifiedSignals _ i o
      have e2 : o ∈ sendModifiedSignals
            { s with inputDirty := (s.inputDirty.set i true).set i true } i none
          ↔ specDependsOn s i o = true := mem_sendModifiedSignals _ i o
      have e3 : o ∈ sendModifiedSignals
            (setOutputsDirty
              { s with inputDirty := ((s.inputDirty.set i true).set i true).set i false } true)
            i none
          ↔ specDependsOn s i o = true := by
        rw [mem_sendModifiedSignals]
        constructor
        · intro h
          rw [specDependsOn_congr s
              (setOutputsDirty
                { s with inputDirty := ((s.inputDirty.set i true).set i true).set i false } true)
              i o rfl (by unfold setOutputsDirty; simp)]
          exact h
        · intro h
          rw [← specDependsOn_congr s
              (setOutputsDirty
                { s with inputDirty := ((s.inputDirty.set i true).set i true).set i false } true)
              i o rfl (by unfold setOutputsDirty; simp)]
          exact h
      rw [List.mem_append, List.mem_append, e1, e2, e3, or_self, or_self]

/-- Witness for C4 at `hintedNode`, input 0, output 1, required input. -/
theorem C4_shared_pointer_dispatch_witness :
    0 < hintedNode.inputDirty.length ∧
    ((dispatchInputSetToSharedPointer hintedNode 0 false).1.inputDirty.getD 0 false = false ∧
     (∀ j, j < hintedNode.outputDirty.length →
       (dispatchInputSetToSharedPointer hintedNode 0 false).1.outputDirty.getD j false = true) ∧
     (1 ∈ (dispatchInputSetToSharedPointer hintedNode 0 false).2 ↔
       specDependsOn hintedNode 0 1 = true)) :=
  ⟨by decide, C4_shared_pointer_dispatch hintedNode 0 1 false (by decide)⟩

/- ------------------------------------------------------------------ -/
/- Claim C5                                                            -/
/- ------------------------------------------------------------------ -/

/-- C5: immediately after its registration, a `Required` input's dirty flag
is true and an `Optional` input's dirty flag is false; registering an input
marks every output dirty (`setOutputsDirty()` at the end of
`registerInput`); a newly registered output's dirty flag starts true; a
newly appended multi-input entry starts with its dirty flag true. -/
theorem C5_registration_initial_flags :
    ∀ (s : NodeState) (m : Nat),
      ((registerInput s InputType.Required).inputDirty.getD s.inputDirty.length false = true ∧
       (registerInput s InputType.Optional).inputDirty.getD s.inputDirty.length false = false ∧
       (∀ (t : InputType) (j : Nat), j < s.outputDirty.length →
         (registerInput s t).outputDirty.getD j false = true) ∧
       (registerOutput s).outputDirty.getD s.outputDirty.length false = true ∧
       (m < s.multiInputDirty.length →
         (onInputAdded s m).multiInputDirty.getD m [] = s.multiInputDirty.getD m [] ++ [true])) := by
  intro s m
  refine ⟨?_, ?_, ?_, ?_, ?_⟩
  · unfold registerInput setOutputsDirty
    dsimp
    exact getD_append_length _ _ _
  · unfold registerInput setOutputsDirty
    dsimp
    exact getD_set_self _ _ _ _ (by simp)
  · intro t j hj
    cases t <;>
      (unfold registerInput setOutputsDirty
       dsimp
       exact getD_map_const _ _ _ _ hj)
  · unfold registerOutput
    dsimp
    exact getD_append_length _ _ _
  · intro hm
    unfold onInputAdded
    dsimp
    exact getD_set_self _ _ _ _ hm

/-- Witness for C5 at `multiDirtyNode` (one multi-input, one entry). -/
theorem C5_registration_initial_flags_witness :
    ((registerInput multiDirtyNode InputType.Required).inputDirty.getD 0 false = true) ∧
    ((registerInput multiDirtyNode InputType.Optional).inputDirty.getD 0 false = false) ∧
    ((registerInput multiDirtyNode InputType.Required).outputDirty.getD 0 false = true) ∧
    ((registerOutput multiDirtyNode).outputDirty.getD 1 false = true) ∧
    ((onInputAdded multiDirtyNode 0).multiInputDirty.getD 0 [] = [true, true]) :=
  ⟨(C5_registration_initial_flags multiDirtyNode 0).1,
   (C5_registration_initial_flags multiDirtyNode 0).2.1,
   (C5_registration_initial_flags multiDirtyNode 0).2.2.1 InputType.Required 0 (by decide),
   (C5_registration_initial_flags multiDirtyNode 0).2.2.2.1,
   (C5_registration_initial_flags multiDirtyNode 0).2.2.2.2 (by decide)⟩

/- ------------------------------------------------------------------ -/
/- Claim C6                                                            -/
/- ------------------------------------------------------------------ -/

/-- C6: `requiredInputsPresent` returns false exactly when some registered
input is required (non-optional) and is neither set (carrier-bound) nor has
an assigned output from which a carrier is obtained; and the pull procedure
never invokes the subclass compute while `requiredInputsPresent` is
false. -/
theorem C6_required_inputs_guard :
    (∀ s : NodeState, requiredInputsPresent s = false ↔
      ∃ i, i < s.inputDirty.length ∧ s.inputRequired.getD i false = true ∧
        s.inputIsSet.getD i false = false ∧ s.inputHasAssignedOutput.getD i false = false) ∧
    (∀ (s : NodeState) (o : Nat), (onUpdate s o).2.isSome = true →
      requiredInputsPresent s = true) := by
  constructor
  · intro s
    unfold requiredInputsPresent
    rw [List.all_eq_false]
    constructor
    · rintro ⟨i, hmem, hbody⟩
      rw [List.mem_range] at hmem
      refine ⟨i, hmem, ?_, ?_, ?_⟩ <;>
        · revert hbody
          cases s.inputIsSet.getD i false <;>
            cases s.inputHasAssignedOutput.getD i false <;>
              cases s.inputRequired.getD i false <;> simp
    · rintro ⟨i, hmem, hreq, hset, hout⟩
      refine ⟨i, List.mem_range.mpr hmem, ?_⟩
      rw [hreq, hset, hout]
      simp
  · intro s o h
    unfold onUpdate at h
    by_cases hc : (haveDirtyOutput (pullPhase1 s o)
        && requiredInputsPresent (pullPhase1 s o)) = true
    · have hr : requiredInputsPresent (pullPhase1 s o) = true := by
        simp only [Bool.and_eq_true] at hc
        exact hc.2
      rw [requiredInputsPresent_pullPhase1] at hr
      exact hr
    · rw [if_neg hc] at h
      simp at h

/-- Witness for C6: the equivalence evaluated at `missingInputNode` (whose
single required input is neither set nor assigned) and the guard applied to
the pull of `producerNode before the sink pulls it`. -/
theorem C6_required_inputs_guard_witness :
    (requiredInputsPresent missingInputNode = false ↔
      ∃ i, i < missingInputNode.inputDirty.length ∧
        missingInputNode.inputRequired.getD i false = true ∧
        missingInputNode.inputIsSet.getD i false = false ∧
        missingInputNode.inputHasAssignedOutput.getD i false = false) ∧
    requiredInputsPresent producerNode = true :=
  ⟨C6_required_inputs_guard.1 missingInputNode,
   C6_required_inputs_guard.2 producerNode 0 (by decide)⟩

/- ------------------------------------------------------------------ -/
/- Claim C7                                                            -/
/- ------------------------------------------------------------------ -/

/-- C7 counterexample: accepting an output of carrier type `String` on a
fresh input declared over `Int` raises `AssignmentError`, yet afterwards
the input is not unset: the output is recorded as assigned and the signal
connections established before the type check persist.  This falsifies the
claim that no assigned output is recorded and no signal connections
persist. -/
theorem C7_counterexample :
    (acceptOutput (freshInput CarrierTy.tyInt) 7 (some CarrierTy.tyString)).2 = true ∧
    (acceptOutput (freshInput CarrierTy.tyInt) 7 (some CarrierTy.tyString)).1.assignedOutput
      = some 7 ∧
    (acceptOutput (freshInput CarrierTy.tyInt) 7 (some CarrierTy.tyString)).1.fwdConnected
      = true ∧
    (acceptOutput (freshInput CarrierTy.tyInt) 7 (some CarrierTy.tyString)).1.bwdConnected
      = true := by
  decide

/-- C7 (amended): when `accept(output)` fails with `AssignmentError`
because the carrier cannot be downcast to the input's declared type, no
carrier is stored in the input and no internal signal is emitted, but the
steps taken before the type check persist: the output remains recorded as
assigned and the four signal connections remain established.  When
`accept(pointer)` fails the same way, no carrier is stored and no signal is
emitted, and the previously assigned output (if any) has been unset. -/
theorem C7_assignment_error_state :
    (∀ (s : InputConnState) (oid : Nat) (odata : Option CarrierTy),
      (acceptOutput s oid odata).2 = true →
        ((acceptOutput s oid odata).1.data = s.data ∧
         (acceptOutput s oid odata).1.emitted = s.emitted ∧
         (acceptOutput s oid odata).1.assignedOutput = some oid ∧
         (acceptOutput s oid odata).1.fwdConnected = true ∧
         (acceptOutput s oid odata).1.bwdConnected = true)) ∧
    (∀ (s : InputConnState) (pd : CarrierTy),
      (acceptPointer s pd).2 = true →
        ((acceptPointer s pd).1.data = s.data ∧
         (acceptPointer s pd).1.emitted = s.emitted ∧
         (acceptPointer s pd).1.assignedOutput = none)) := by
  constructor
  · intro s oid odata h
    unfold acceptOutput at h ⊢
    cases odata with
    | none => simp at h
    | some rt =>
        dsimp at h ⊢
        by_cases hc : (rt == s.declaredTy) = true
        · rw [if_pos hc] at h
          simp at h
        · rw [if_neg hc] at h ⊢
          exact ⟨rfl, rfl, rfl, rfl, rfl⟩
  · intro s pd h
    unfold acceptPointer at h ⊢
    dsimp at h ⊢
    by_cases hc : (pd == s.declaredTy) = true
    · rw [if_pos hc] at h
      simp at h
    · rw [if_neg hc] at h ⊢
      exact ⟨rfl, rfl, rfl⟩

/-- Witness for C7 at the type-mismatched connection of the
counterexample. -/
theorem C7_assignment_error_state_witness :
    ((acceptOutput (freshInput CarrierTy.tyInt) 7 (some CarrierTy.tyString)).1.data = none ∧
     (acceptOutput (freshInput CarrierTy.tyInt) 7 (some CarrierTy.tyString)).1.emitted = [] ∧
     (acceptOutput (freshInput CarrierTy.tyInt) 7 (some CarrierTy.tyString)).1.assignedOutput
       = some 7 ∧
     (acceptOutput (freshInput CarrierTy.tyInt) 7 (some CarrierTy.tyString)).1.fwdConnected
       = true ∧
     (acceptOutput (freshInput CarrierTy.tyInt) 7 (some CarrierTy.tyString)).1.bwdConnected
       = true) ∧
    ((acceptPointer (freshInput CarrierTy.tyInt) CarrierTy.tyString).1.data = none ∧
     (acceptPointer (freshInput CarrierTy.tyInt) CarrierTy.tyString).1.emitted = [] ∧
     (acceptPointer (freshInput CarrierTy.tyInt) CarrierTy.tyString).1.assignedOutput = none) :=
  ⟨C7_assignment_error_state.1 (freshInput CarrierTy.tyInt) 7 (some CarrierTy.tyString)
     (by decide),
   C7_assignment_error_state.2 (freshInput CarrierTy.tyInt) CarrierTy.tyString (by decide)⟩

/- ------------------------------------------------------------------ -/
/- Claim C8                                                            -/
/- ------------------------------------------------------------------ -/

/-- C8 (code bug): `Inputs::clear` empties the list of inner inputs and
clears every registered slot vector, but emits no signal at all — in
particular no `InputsCleared`, although the owning node registered a
handler for it and the signal's documentation says it is elicited by
`clearInputs`.  Consequently the node's dirty vector for the multi-input is
left unchanged (still `[true]`) and `haveDirtyInput` still reports a dirty
entry after the clear, contradicting the claim that the dirty vector is
emptied. -/
theorem C8_clear_leaves_node_dirty :
    (clearInputs multiDirtyNode oneEntryMulti 0).2.inputsCount = 0 ∧
    (clearInputs multiDirtyNode oneEntryMulti 0).2.slotSizes = [0] ∧
    (inputsClear oneEntryMulti).2 = [] ∧
    (clearInputs multiDirtyNode oneEntryMulti 0).1.multiInputDirty = [[true]] ∧
    haveDirtyInput (clearInputs multiDirtyNode oneEntryMulti 0).1 = true := by
  decide

/- ------------------------------------------------------------------ -/
/- Claim C9                                                            -/
/- ------------------------------------------------------------------ -/

/-- The property the claim asserts, over the mutation events of the runtime
protocol: every mutation of a dirty flag holds the dirty-state mutex. -/
def allMutationsUnderDirtyMutex : Bool :=
  protocolMutations.all (fun e => e.underDirtyMutex)

/-- C9 counterexample: `setDirty` mutates an output-dirty flag
(src/SimpleProcessNode.cpp line 218) while holding no mutex at all, and the
pull procedure's two `setOutputsDirty` calls (lines 324 and 352) run
outside the dirty-state mutex; so not every dirty-flag mutation of the
protocol holds the dirty-state mutex. -/
theorem C9_counterexample :
    allMutationsUnderDirtyMutex = false ∧
    setDirtyMutations.all (fun e => e.underDirtyMutex) = false ∧
    onUpdateMutations.any
      (fun e => !e.underDirtyMutex && (e.flag == FlagKind.outputFlag)) = true := by
  decide

/-- C9 (amended): within the runtime protocol, every mutation of an
input-dirty or multi-input-dirty flag executes under the dirty-state mutex,
but the output-dirty flags are not so protected: `setDirty` writes them
under no mutex at all, and the pull procedure's `setOutputsDirty` calls
write them under the update mutex only. -/
theorem C9_lock_discipline :
    protocolMutations.all (fun e =>
      !(e.flag == FlagKind.inputFlag || e.flag == FlagKind.multiFlag)
        || e.underDirtyMutex) = true ∧
    setDirtyMutations.all (fun e => !e.underDirtyMutex && !e.underUpdateMutex) = true ∧
    onUpdateMutations.all (fun e =>
      !(e.flag == FlagKind.outputFlag) || (!e.underDirtyMutex && e.underUpdateMutex)) = true := by
  decide

/- ------------------------------------------------------------------ -/
/- Claim C10                                                           -/
/- ------------------------------------------------------------------ -/

/-- C10: calling `setDirty` with an output that was never registered does
not raise: it logs an error and continues, default-inserting index 0 for
that output into `_outputNums`; on a node with at least one registered
output it then sets `outputDirty[0]` to true and emits `Modified` on output
0, while on a node with no registered outputs the write
`_outputDirty[0] = true` indexes one past the end of the empty
output-dirty vector. -/
theorem C10_setDirty_unregistered :
    ∀ (m : List (Nat × Nat)) (v : List Bool) (oid : Nat),
      mapFind m oid = none →
      ((setDirty m v oid).loggedError = true ∧
       (setDirty m v oid).outputNums = m ++ [(oid, 0)] ∧
       (0 < v.length →
         ((setDirty m v oid).outputDirty = v.set 0 true ∧
          (setDirty m v oid).emitted = [0] ∧
          (setDirty m v oid).outOfBounds = false)) ∧
       (v = [] → (setDirty m v oid).outOfBounds = true)) := by
  intro m v oid h
  unfold setDirty mapIndex
  rw [h]
  dsimp
  refine ⟨?_, ?_, ?_, ?_⟩
  · by_cases hv : 0 < v.length
    · rw [if_pos hv]
    · rw [if_neg hv]
  · by_cases hv : 0 < v.length
    · rw [if_pos hv]
    · rw [if_neg hv]
  · intro hv
    rw [if_pos hv]
    exact ⟨rfl, rfl, rfl⟩
  · intro hv
    subst hv
    rw [if_neg (by simp)]

/-- Witness for C10: an unregistered output id 5 on a node with one
registered output, and an unregistered output id 6 on a node with no
registered output. -/
theorem C10_setDirty_unregistered_witness :
    (setDirty [] [false] 5).loggedError = true ∧
    (setDirty [] [false] 5).outputNums = [(5, 0)] ∧
    (setDirty [] [false] 5).outputDirty = [true] ∧
    (setDirty [] [false] 5).emitted = [0] ∧
    (setDirty [] [] 6).outOfBounds = true :=
  ⟨(C10_setDirty_unregistered [] [false] 5 (by decide)).1,
   (C10_setDirty_unregistered [] [false] 5 (by decide)).2.1,
   ((C10_setDirty_unregistered [] [false] 5 (by decide)).2.2.1 (by decide)).1,
   ((C10_setDirty_unregistered [] [false] 5 (by decide)).2.2.1 (by decide)).2.1,
   (C10_setDirty_unregistered [] [] 6 (by decide)).2.2.2 rfl⟩
